import Mathlib

/-!
Shallow embedding of the download queue and chapter-acquisition pipeline of
MasterOfKays-Manga-DL (src/gui.py, src/webtoon.py, src/assuracomics.py,
src/mangakatana.py), together with theorems settling the frozen claims.

Network access (HTTP fetches, browser automation) and HTML scraping are
external capabilities; they enter the model as oracle parameters:
`fetch : String → Nat → Option Nat` gives, for an image URL and an attempt
index, either the size in bytes of the fetched body or a failure, and
`page : Option (List String)` stands for the outcome of loading and scraping
the chapter page (none models any exception or a missing image container;
some urls is the extracted, cleaned image URL list).  The filesystem is a
finite map from paths to file sizes.
-/

namespace MangaDL

/-- Filesystem model: association list from absolute path to size in bytes. -/
abbrev Fs := List (String × Nat)

/-- Size of the file at path `p`, if it exists (os.path.getsize). -/
def Fs.sizeAt (fs : Fs) (p : String) : Option Nat :=
  (fs.find? (fun e => e.1 == p)).map (fun e => e.2)

/-- os.path.exists. -/
def Fs.fileExists (fs : Fs) (p : String) : Bool :=
  (fs.sizeAt p).isSome

/-- os.path.exists(p) and os.path.getsize(p) > 0. -/
def Fs.isNonEmptyFile (fs : Fs) (p : String) : Bool :=
  match fs.sizeAt p with
  | some n => n > 0
  | none => false

/-- os.remove. -/
def Fs.removeFile (fs : Fs) (p : String) : Fs :=
  fs.filter (fun e => e.1 != p)

/-- Create or overwrite the file at `p` with `n` bytes. -/
def Fs.writeFile (fs : Fs) (p : String) (n : Nat) : Fs :=
  (p, n) :: fs.removeFile p

/-- Byte size of a stored (ZIP_STORED, the zipfile.writestr default) archive
whose entries are named NNN.jpg (7 characters): per entry a 30-byte local
header plus name, the raw data, and a 46-byte central-directory record plus
name, then the 22-byte end-of-central-directory record.  In particular an
archive with no entries occupies 22 bytes. -/
def zipSize (entrySizes : List Nat) : Nat :=
  22 + (entrySizes.map (fun n => 90 + n)).sum

/-- Characters stripped from manga names by assuracomics.py and
mangakatana.py before building the folder path. -/
def badChars : List Char := ['/', ':', '*', '?', '\"', '<', '>', '|']

/-- safe_manga_name = ''.join(c for c in manga_name if c not in '/:*?"<>|'),
falling back to the original name when everything was stripped. -/
def sanitizeName (name : String) : String :=
  let s := String.mk (name.data.filter (fun c => !(badChars.contains c)))
  if s = "" then name else s

/-- str(chapter_num).strip(): leading and trailing whitespace removed. -/
def pyStrip (s : String) : String :=
  String.mk (((s.data.dropWhile Char.isWhitespace).reverse.dropWhile Char.isWhitespace).reverse)

/-- Destination archive path used by the adapters:
base/safe_name/"Chapter num.cbz" (chapter_num is stripped first). -/
def adapterCbzPath (basePath mangaName chapterNum : String) : String :=
  basePath ++ "/" ++ sanitizeName mangaName ++ "/Chapter " ++ pyStrip chapterNum ++ ".cbz"

/-- Outcome of the 3-attempt retry loop around one image fetch
(assuracomics.py lines 175-188, mangakatana.py lines 278-294): the fetched
size if any attempt succeeded, the number of attempts actually issued, and
the seconds slept (time.sleep(1) after each failed non-final attempt). -/
structure FetchOutcome where
  result : Option Nat
  attempts : Nat
  sleepSeconds : Nat
deriving DecidableEq, Repr

/-- for retry in range(3): fetch; on failure sleep(1) unless it was the last
attempt, in which case the error is re-raised. -/
def retry3 (fetch : String → Nat → Option Nat) (url : String) : FetchOutcome :=
  match fetch url 0 with
  | some n => ⟨some n, 1, 0⟩
  | none =>
    match fetch url 1 with
    | some n => ⟨some n, 2, 1⟩
    | none =>
      match fetch url 2 with
      | some n => ⟨some n, 3, 2⟩
      | none => ⟨none, 3, 2⟩

/-- Per-image loop shared in shape by assuracomics.py (lines 173-206) and
mangakatana.py (lines 276-297): each URL goes through the 3-attempt retry;
an image whose attempts are exhausted is logged and skipped, and the loop
continues with the next image.  Returns the sizes of the successfully
fetched images in order, the total number of fetch attempts issued, and the
total seconds slept. -/
def fetchImagesRetry3 (fetch : String → Nat → Option Nat) :
    List String → List Nat × Nat × Nat
  | [] => ([], 0, 0)
  | u :: rest =>
    let o := retry3 fetch u
    let r := fetchImagesRetry3 fetch rest
    match o.result with
    | some n => (n :: r.1, r.2.1 + o.attempts, r.2.2 + o.sleepSeconds)
    | none => (r.1, r.2.1 + o.attempts, r.2.2 + o.sleepSeconds)

/-- Per-image loop of webtoon.py (lines 111-123): a single requests.get per
image with no retry; raise_for_status on a failed fetch raises out of the
whole loop.  Returns some sizes on success of every image, or none as soon
as one image fails, together with the number of fetch attempts issued. -/
def webtoonFetchImages (fetch : String → Nat → Option Nat) :
    List String → Option (List Nat) × Nat
  | [] => (some [], 0)
  | u :: rest =>
    match fetch u 0 with
    | none => (none, 1)
    | some n =>
      match webtoonFetchImages fetch rest with
      | (none, c) => (none, c + 1)
      | (some sizes, c) => (some (n :: sizes), c + 1)

/-- Result of an adapter download call: the returned path ("" on failure),
the filesystem afterwards, the number of image fetch attempts issued, and
the seconds slept in retry backoff. -/
structure DlResult where
  path : String
  fs : Fs
  imageFetches : Nat
  sleepSeconds : Nat
deriving DecidableEq, Repr

/-- webtoon.download_chapter (webtoon.py lines 80-130).  The chapter page
fetch and image-container scraping are the `page` oracle.  The destination
check (line 89) tests mere existence, with no size check.  The zip is
created before the image loop; when an image fetch raises, the except
handler removes the partially written archive and returns "". -/
def webtoonDownload (fetch : String → Nat → Option Nat)
    (page : Option (List String)) (chapterNum mangaName cwd : String)
    (fs : Fs) : DlResult :=
  let cbzPath := cwd ++ "/" ++ mangaName ++ "/Chapter " ++ chapterNum ++ ".cbz"
  if fs.fileExists cbzPath then
    ⟨cbzPath, fs, 0, 0⟩
  else
    match page with
    | none => ⟨"", fs, 0, 0⟩
    | some urls =>
      if urls.isEmpty then ⟨"", fs, 0, 0⟩
      else
        match webtoonFetchImages fetch urls with
        | (some sizes, c) => ⟨cbzPath, fs.writeFile cbzPath (zipSize sizes), c, 0⟩
        | (none, c) => ⟨"", (fs.writeFile cbzPath 0).removeFile cbzPath, c, 0⟩

/-- assuracomics.download_chapter (assuracomics.py lines 80-253).  Browser
automation and image extraction are the `page` oracle.  Destination check
(lines 98-104): a non-empty archive is returned immediately; an empty one is
removed and the download proceeds.  Images are fetched to temp files via the
3-attempt retry loop, failed images are skipped; if no image succeeded the
temp dir is cleaned up and "" is returned with no archive written, otherwise
the archive is written from the fetched images. -/
def asuraDownload (fetch : String → Nat → Option Nat)
    (page : Option (List String)) (chapterNum mangaName basePath : String)
    (fs : Fs) : DlResult :=
  let cbzPath := adapterCbzPath basePath mangaName chapterNum
  if fs.isNonEmptyFile cbzPath then
    ⟨cbzPath, fs, 0, 0⟩
  else
    let fs1 := if fs.fileExists cbzPath then fs.removeFile cbzPath else fs
    match page with
    | none => ⟨"", fs1, 0, 0⟩
    | some urls =>
      if urls.isEmpty then ⟨"", fs1, 0, 0⟩
      else
        let r := fetchImagesRetry3 fetch urls
        if r.1.isEmpty then ⟨"", fs1, r.2.1, r.2.2⟩
        else ⟨cbzPath, fs1.writeFile cbzPath (zipSize r.1), r.2.1, r.2.2⟩

/-- Result of mangakatana.download_chapter: the dict with path and success
flag, plus the filesystem and fetch accounting. -/
structure KatanaResult where
  path : String
  success : Bool
  fs : Fs
  imageFetches : Nat
  sleepSeconds : Nat
deriving DecidableEq, Repr

/-- mangakatana.download_chapter (mangakatana.py lines 100-310).  The
chapter-page fetch (itself retried) and the four cascading image-URL
extraction methods plus URL cleaning are the `page` oracle.  Destination
check (lines 120-126) as in asuraDownload.  Images are written straight
into the open zip through the 3-attempt retry loop, failures skipped; after
the loop the archive is deleted and the call fails whenever the finished
file is smaller than 1000 bytes (lines 298-301), regardless of how many
images succeeded. -/
def katanaDownload (fetch : String → Nat → Option Nat)
    (page : Option (List String)) (chapterNum mangaName basePath : String)
    (fs : Fs) : KatanaResult :=
  let cbzPath := adapterCbzPath basePath mangaName chapterNum
  if fs.isNonEmptyFile cbzPath then
    ⟨cbzPath, true, fs, 0, 0⟩
  else
    let fs1 := if fs.fileExists cbzPath then fs.removeFile cbzPath else fs
    match page with
    | none => ⟨"", false, fs1, 0, 0⟩
    | some urls =>
      if urls.isEmpty then ⟨"", false, fs1, 0, 0⟩
      else
        let r := fetchImagesRetry3 fetch urls
        let fs2 := fs1.writeFile cbzPath (zipSize r.1)
        if zipSize r.1 < 1000 then
          ⟨"", false, fs2.removeFile cbzPath, r.2.1, r.2.2⟩
        else
          ⟨cbzPath, true, fs2, r.2.1, r.2.2⟩

/-! History store (gui.py, MangaHistoryManager).  Timestamps are abstracted
away; a manga record keeps the url, the site type and the chapter map
(chapter id to chapter url). -/

/-- One value of the history mapping. -/
structure MangaRecord where
  url : String
  siteType : String
  chapters : List (String × String)
deriving DecidableEq, Repr

/-- The history mapping, keyed by manga name. -/
abbrev History := List (String × MangaRecord)

/-- Contents of the persisted history file as found on disk. -/
inductive HistoryFile where
  | absent
  | unreadable
  | nonDict (descr : String)
  | dictFile (h : History)
deriving DecidableEq

/-- What _load_history (gui.py lines 64-82) produced: the value assigned to
self.history (Python None is modelled as Option.none), and whether the bad
file was renamed aside to history.json.backup. -/
structure LoadOutcome where
  history : Option History
  renamedAside : Bool
deriving DecidableEq, Repr

/-- Model of MangaHistoryManager._load_history.  A dict file is returned;
a readable file holding non-dict JSON is renamed aside and the function
falls through, returning None; an unreadable file raises inside json.load,
the exception is caught and logged, and the function again falls through
returning None; an absent file also falls through returning None.  No
branch returns an empty dict, and no branch raises to the caller. -/
def loadHistory : HistoryFile → LoadOutcome
  | .absent => ⟨none, false⟩
  | .unreadable => ⟨none, false⟩
  | .nonDict _ => ⟨none, true⟩
  | .dictFile h => ⟨some h, false⟩

/-- h.get(name) on the history dict. -/
def History.lookupManga (h : History) (name : String) : Option MangaRecord :=
  (h.find? (fun e => e.1 == name)).map (fun e => e.2)

/-- Model of MangaHistoryManager.add_manga (gui.py lines 92-105) run against
the value _load_history assigned to self.history.  The first statement is
`if manga_name not in self.history`: on a None history the membership test
raises TypeError, which the method does not catch. -/
def addManga (hist : Option History) (name url siteType : String) :
    Except String History :=
  match hist with
  | none => .error "TypeError: argument of type NoneType is not iterable"
  | some h =>
    match h.lookupManga name with
    | some _ => .ok h
    | none => .ok (h ++ [(name, ⟨url, siteType, []⟩)])

/-- Model of MangaHistoryManager.get_manga_list (gui.py lines 120-122):
list(self.history.keys()); on a None history the attribute access raises
AttributeError. -/
def getMangaList (hist : Option History) : Except String (List String) :=
  match hist with
  | none => .error "AttributeError: NoneType object has no attribute keys"
  | some h => .ok (h.map (fun e => e.1))

/-- Model of MangaHistoryManager.add_downloaded_chapter (gui.py lines
107-118): on a None history the membership test raises TypeError. -/
def addDownloadedChapter (hist : Option History)
    (name chapterNum siteType chapterUrl : String) : Except String History :=
  match hist with
  | none => .error "TypeError: argument of type NoneType is not iterable"
  | some h =>
    let h1 : History := match h.lookupManga name with
      | some _ => h
      | none => h ++ [(name, ⟨"", siteType, []⟩)]
    .ok (h1.map (fun e =>
      if e.1 == name then
        (e.1, { e.2 with chapters := e.2.chapters ++ [(chapterNum, chapterUrl)] })
      else e))

/-! Download queue manager (gui.py, DownloadManager._process_queue). -/

/-- A chapter reference as produced by get_chapter_links:
(chapter_num, chapter_name, chapter_url). -/
structure Chapter where
  num : String
  name : String
  url : String
deriving DecidableEq, Repr

/-- One item of the download queue: (url, site_type, chapter_range). -/
structure Task where
  url : String
  siteType : String
  range : Option (List Chapter)
deriving DecidableEq, Repr

/-- The Qt signals emitted by the worker, in emission order. -/
inductive Event where
  | mangaStarted (manga : String)
  | mangaCompleted (manga : String)
  | mangaFailed (manga msg : String)
  | chapterStarted (manga num : String)
  | chapterCompleted (manga num path : String)
  | chapterFailed (manga num msg : String)
  | mangaProgress (manga : String) (pct : Nat)
  | downloadCancelled (manga : String)
  | downloadPaused (manga : String)
deriving DecidableEq, Repr

/-- External capabilities of the worker: name derivation, chapter-list
resolution (Except models a raised exception), and the per-chapter download
through _download_chapter and the site adapters (returning the reported cbz
path, "" on failure, and the filesystem afterwards; an error models an
exception escaping into the per-chapter handler). -/
structure Env where
  getMangaName : String → String → String
  getChapters : String → String → Except String (List Chapter)
  downloadChapter : String → String → String → String → Fs → Except String (String × Fs)

/-- Worker state: the FIFO task queue, the cancel-requested and paused name
sets, the filesystem, the emitted events in order, how many times the
download capability was invoked, and milliseconds spent in worker sleeps. -/
structure QState where
  queue : List Task
  cancel : List String
  paused : List String
  fs : Fs
  events : List Event
  adapterCalls : Nat
  sleepMs : Nat
deriving DecidableEq, Repr

/-- chapter id test x[0].replace('.', '', 1).isdigit() used by the sort key:
remove the first dot, then require a non-empty all-digit string. -/
def removeFirstDot : List Char → List Char
  | [] => []
  | c :: rest => if c = '.' then rest else c :: removeFirstDot rest

/-- Whether the sort key for this chapter id is float(id) rather than the
raw string. -/
def isNumericId (s : String) : Bool :=
  let t := removeFirstDot s.data
  !t.isEmpty && t.all Char.isDigit

/-- Numeric value of digit characters (most significant first). -/
def digitsToNat (l : List Char) : Nat :=
  l.foldl (fun a c => a * 10 + (c.toNat - 48)) 0

/-- float(id) for ids accepted by isNumericId, as an exact rational. -/
def idValue (s : String) : ℚ :=
  match s.splitOn "." with
  | [w] => digitsToNat w.data
  | [w, f] => (digitsToNat w.data : ℚ) + (digitsToNat f.data : ℚ) / ((10 : ℚ) ^ f.length)
  | _ => 0

/-- chapters.sort(key=lambda x: float(x[0]) if numeric else x[0]) inside
try/except (gui.py lines 285-289).  With at most one element no comparison
runs.  When every key is a float the list is sorted numerically; when every
key is a string it is sorted lexically; a mixed list raises TypeError on
the first float/str comparison and the except branch keeps the original
order. -/
def sortChapters (l : List Chapter) : List Chapter :=
  if l.length ≤ 1 then l
  else if l.all (fun c => isNumericId c.num) then
    l.mergeSort (fun a b => decide (idValue a.num ≤ idValue b.num))
  else if l.all (fun c => !isNumericId c.num) then
    l.mergeSort (fun a b => decide (a.num ≤ b.num))
  else l

/-- Expected archive path checked by the worker loop (gui.py line 313):
os.path.join(download_path, manga_name, "Chapter NUM.cbz") with the raw
manga name. -/
def chapterCbzPath (dlPath manga num : String) : String :=
  dlPath ++ "/" ++ manga ++ "/Chapter " ++ num ++ ".cbz"

/-- int((idx + 1) / total * 100) for the manga_progress signal. -/
def progressPct (idx total : Nat) : Nat :=
  (idx + 1) * 100 / total

/-- Uninterrupted body of one iteration of the chapter loop (gui.py lines
311-339): chapter_started is emitted, a non-empty archive at the expected
path short-circuits to chapter_completed with no download call, else
_download_chapter runs and its result decides chapter_completed or
chapter_failed; a chapter-level exception is caught and recorded as
chapter_failed; either way manga_progress is emitted.  Returns the updated
success counter and state. -/
def chapterStep (env : Env) (dlPath siteType manga : String)
    (total idx successful : Nat) (c : Chapter) (st : QState) : Nat × QState :=
  let st1 := { st with events := st.events ++ [Event.chapterStarted manga c.num] }
  let path := chapterCbzPath dlPath manga c.num
  let next : Nat × QState :=
    if st1.fs.isNonEmptyFile path then
      (successful + 1, { st1 with
        events := st1.events ++ [Event.chapterCompleted manga c.num path] })
    else
      match env.downloadChapter c.url c.num manga siteType st1.fs with
      | .ok (cbz, fs2) =>
        let st2 := { st1 with fs := fs2, adapterCalls := st1.adapterCalls + 1 }
        if cbz != "" && fs2.isNonEmptyFile cbz then
          (successful + 1, { st2 with
            events := st2.events ++ [Event.chapterCompleted manga c.num cbz] })
        else
          (successful, { st2 with
            events := st2.events ++ [Event.chapterFailed manga c.num
              "Download failed - chapter may not exist or download failed"] })
      | .error msg =>
        (successful, { st1 with
          adapterCalls := st1.adapterCalls + 1,
          events := st1.events ++ [Event.chapterFailed manga c.num
            ("Failed to process chapter " ++ c.num ++ ": " ++ msg)] })
  (next.1, { next.2 with
    events := next.2.events ++ [Event.mangaProgress manga (progressPct idx total)] })

/-- The per-chapter loop of _process_queue (gui.py lines 294-339), iterating
over the remaining chapters with the running index and success counter.
Before each chapter the two interrupt flags are checked: cancel-requested
breaks after clearing the flag and emitting download_cancelled;
pause-requested breaks after re-enqueuing the remaining chapters (current
one included) at the queue tail and emitting download_paused; otherwise the
chapter is processed by chapterStep and the loop continues. -/
def chapterLoop (env : Env) (dlPath url siteType manga : String) (total : Nat) :
    List Chapter → Nat → Nat → QState → Nat × QState
  | [], _, successful, st => (successful, st)
  | c :: rest, idx, successful, st =>
    if st.cancel.contains manga then
      (successful, { st with
        cancel := st.cancel.erase manga,
        events := st.events ++ [Event.downloadCancelled manga] })
    else if st.paused.contains manga then
      (successful, { st with
        queue := st.queue ++ [⟨url, siteType, some (c :: rest)⟩],
        events := st.events ++ [Event.downloadPaused manga] })
    else
      let next := chapterStep env dlPath siteType manga total idx successful c st
      chapterLoop env dlPath url siteType manga total rest (idx + 1) next.1 next.2

/-- Chapter selection (gui.py lines 272-281): a truthy (non-empty)
chapter_range replaces the resolved listing; None or an empty list leaves
the listing untouched (the code's inner "No valid chapters" branch is
unreachable because an empty range is already falsy). -/
def taskChosen (t : Task) (listed : List Chapter) : List Chapter :=
  match t.range with
  | some r => if r.isEmpty then listed else r
  | none => listed

/-- The terminal status the aggregation block (gui.py lines 341-352) emits
as a function of the success counter and the chapter count, phrased the way
the spec classifies it: Failed on zero successes, Completed when every
chapter succeeded, PartiallyCompleted (a manga_completed signal whose name
carries the Partial annotation) in between. -/
def aggEvent (manga : String) (successful total : Nat) : Event :=
  if successful = 0 then .mangaFailed manga "All chapters failed to download"
  else if successful = total then .mangaCompleted manga
  else .mangaCompleted (manga ++ " (Partial: " ++ toString successful ++ "/" ++ toString total ++ ")")

/-- Processing of one dequeued task (gui.py lines 250-369).  A task whose
manga is paused is put back at the queue tail after a 0.5 s sleep and not
processed.  Otherwise manga_started is emitted; a raised chapter-list
resolution is caught by the task-level handler and emits manga_failed; an
empty listing emits manga_failed "No chapters found for this manga"; a
truthy (non-empty) chapter_range replaces the listing; the chapters are
sorted and the chapter loop runs; finally, when the manga name is in
neither the cancel set nor the paused set after the loop, the aggregate
terminal event is emitted. -/
def processTask (env : Env) (dlPath : String) (t : Task) (st : QState) : QState :=
  let manga := env.getMangaName t.url t.siteType
  if st.paused.contains manga then
    { st with queue := st.queue ++ [t], sleepMs := st.sleepMs + 500 }
  else
    let st1 := { st with events := st.events ++ [.mangaStarted manga] }
    match env.getChapters t.url t.siteType with
    | .error msg =>
      { st1 with events := st1.events ++ [.mangaFailed manga ("Error: " ++ msg)] }
    | .ok listed =>
      if listed.isEmpty then
        { st1 with events := st1.events ++ [.mangaFailed manga "No chapters found for this manga"] }
      else
        let sorted := sortChapters (taskChosen t listed)
        let r := chapterLoop env dlPath t.url t.siteType manga sorted.length sorted 0 0 st1
        if !(r.2.cancel.contains manga) && !(r.2.paused.contains manga) then
          if r.1 > 0 then
            if r.1 = sorted.length then
              { r.2 with events := r.2.events ++ [Event.mangaCompleted manga] }
            else
              { r.2 with events := r.2.events ++ [Event.mangaCompleted
                  (manga ++ " (Partial: " ++ toString r.1 ++ "/" ++ toString sorted.length ++ ")")] }
          else
            { r.2 with events := r.2.events ++ [Event.mangaFailed manga "All chapters failed to download"] }
        else r.2

/-- The worker loop _process_queue (gui.py lines 241-381): while the queue
is non-empty, dequeue the head task and process it; a task-level failure is
caught inside processTask, so the loop only stops when the queue drains (or
the fuel runs out, standing for an unboundedly long run). -/
def processQueue (env : Env) (dlPath : String) : Nat → QState → QState
  | 0, st => st
  | fuel + 1, st =>
    match st.queue with
    | [] => st
    | t :: rest => processQueue env dlPath fuel (processTask env dlPath t { st with queue := rest })

/-! Helper lemmas. -/

/-- Removing a file really removes it: the path no longer exists. -/
theorem Fs.fileExists_removeFile (fs : Fs) (p : String) :
    (fs.removeFile p).fileExists p = false := by
  induction fs with
  | nil => rfl
  | cons e rest ih =>
    unfold Fs.removeFile Fs.fileExists Fs.sizeAt at ih ⊢
    by_cases h : e.1 = p
    · simp only [List.filter_cons, h, bne_self_eq_false]
      exact ih
    · have hb : (e.1 == p) = false := by
        simpa using h
      simp only [List.filter_cons, bne, hb, Bool.not_false, if_true, List.find?_cons, hb]
      exact ih

/-- chapterStep never touches the cancel set, the paused set or the queue. -/
theorem chapterStep_sets (env : Env) (dlPath siteType manga : String)
    (total idx successful : Nat) (c : Chapter) (st : QState) :
    (chapterStep env dlPath siteType manga total idx successful c st).2.cancel = st.cancel ∧
    (chapterStep env dlPath siteType manga total idx successful c st).2.paused = st.paused ∧
    (chapterStep env dlPath siteType manga total idx successful c st).2.queue = st.queue := by
  unfold chapterStep
  dsimp only
  split
  · exact ⟨rfl, rfl, rfl⟩
  · split
    · split
      · exact ⟨rfl, rfl, rfl⟩
      · exact ⟨rfl, rfl, rfl⟩
    · exact ⟨rfl, rfl, rfl⟩

/-- chapterStep increments the success counter by at most one. -/
theorem chapterStep_success_le (env : Env) (dlPath siteType manga : String)
    (total idx successful : Nat) (c : Chapter) (st : QState) :
    (chapterStep env dlPath siteType manga total idx successful c st).1 ≤ successful + 1 := by
  unfold chapterStep
  dsimp only
  split
  · exact le_refl _
  · split
    · split
      · exact le_refl _
      · exact Nat.le_succ _
    · exact Nat.le_succ _

/-- When the manga is neither cancel-requested nor paused on entry, the
chapter loop leaves the cancel set, the paused set and the queue unchanged
(the two break branches are never taken). -/
theorem chapterLoop_sets (env : Env) (dlPath url siteType manga : String) (total : Nat) :
    ∀ (chs : List Chapter) (idx successful : Nat) (st : QState),
      st.cancel.contains manga = false → st.paused.contains manga = false →
      (chapterLoop env dlPath url siteType manga total chs idx successful st).2.cancel = st.cancel ∧
      (chapterLoop env dlPath url siteType manga total chs idx successful st).2.paused = st.paused ∧
      (chapterLoop env dlPath url siteType manga total chs idx successful st).2.queue = st.queue := by
  intro chs
  induction chs with
  | nil =>
    intro idx successful st hc hp
    exact ⟨rfl, rfl, rfl⟩
  | cons c rest ih =>
    intro idx successful st hc hp
    have hstep := chapterStep_sets env dlPath siteType manga total idx successful c st
    have hih := ih (idx + 1)
      (chapterStep env dlPath siteType manga total idx successful c st).1
      (chapterStep env dlPath siteType manga total idx successful c st).2
      (by rw [hstep.1]; exact hc) (by rw [hstep.2.1]; exact hp)
    simp only [chapterLoop, hc, hp, Bool.false_eq_true, if_false]
    exact ⟨by rw [hih.1, hstep.1], by rw [hih.2.1, hstep.2.1], by rw [hih.2.2, hstep.2.2]⟩

/-- The success counter counts at most one success per chapter. -/
theorem chapterLoop_success_le (env : Env) (dlPath url siteType manga : String) (total : Nat) :
    ∀ (chs : List Chapter) (idx successful : Nat) (st : QState),
      (chapterLoop env dlPath url siteType manga total chs idx successful st).1 ≤
        successful + chs.length := by
  intro chs
  induction chs with
  | nil =>
    intro idx successful st
    simp [chapterLoop]
  | cons c rest ih =>
    intro idx successful st
    simp only [chapterLoop, List.length_cons]
    split
    · simp
    · split
      · simp
      · calc (chapterLoop env dlPath url siteType manga total rest (idx + 1)
              (chapterStep env dlPath siteType manga total idx successful c st).1
              (chapterStep env dlPath siteType manga total idx successful c st).2).1
            ≤ (chapterStep env dlPath siteType manga total idx successful c st).1 + rest.length :=
              ih (idx + 1) _ _
          _ ≤ successful + 1 + rest.length :=
              Nat.add_le_add_right (chapterStep_success_le env dlPath siteType manga total idx successful c st) _
          _ = successful + (rest.length + 1) := by omega

/-! Claim theorems. -/

/-- Claim C1 (confirmed): at any chapter boundary of a Task, when a file
Chapter id.cbz already exists with non-zero size at the deterministic path
download_root/manga_name/Chapter id.cbz, the worker marks the chapter
Completed (chapter_completed is emitted and the success counter counts it
as a success) and performs no network fetch for it: the continuation state
the rest of the loop runs on keeps the same filesystem and the same
adapter-call count, so _download_chapter is never invoked for that chapter
and re-running a Task never redoes completed work. -/
theorem idempotent_skip (env : Env) (dlPath url siteType manga : String)
    (total idx successful : Nat) (c : Chapter) (rest : List Chapter) (st : QState)
    (hc : st.cancel.contains manga = false)
    (hp : st.paused.contains manga = false)
    (hfile : st.fs.isNonEmptyFile (chapterCbzPath dlPath manga c.num) = true) :
    chapterLoop env dlPath url siteType manga total (c :: rest) idx successful st =
      chapterLoop env dlPath url siteType manga total rest (idx + 1) (successful + 1)
        { st with events := st.events ++ [Event.chapterStarted manga c.num,
            Event.chapterCompleted manga c.num (chapterCbzPath dlPath manga c.num),
            Event.mangaProgress manga (progressPct idx total)] } := by
  have hc' : manga ∉ st.cancel := by simpa using hc
  have hp' : manga ∉ st.paused := by simpa using hp
  simp [chapterLoop, chapterStep, hc', hp', hfile]

/-- Environment and state used to instantiate the hypothesis-bearing
theorems on concrete inputs. -/
def wEnv : Env :=
  { getMangaName := fun _ _ => "M"
  , getChapters := fun _ _ => .ok [⟨"7", "Seven", "cu7"⟩]
  , downloadChapter := fun _ _ _ _ fs => .ok ("", fs) }

/-- A state whose filesystem already holds a non-empty Chapter 7.cbz. -/
def wSt : QState := ⟨[], [], [], [("dl/M/Chapter 7.cbz", 4000)], [], 0, 0⟩

theorem idempotent_skip_witness :
    (wSt.cancel.contains "M" = false ∧ wSt.paused.contains "M" = false ∧
      wSt.fs.isNonEmptyFile (chapterCbzPath "dl" "M" "7") = true) ∧
    chapterLoop wEnv "dl" "u" "asura" "M" 1 [⟨"7", "Seven", "cu7"⟩] 0 0 wSt =
      chapterLoop wEnv "dl" "u" "asura" "M" 1 [] 1 1
        { wSt with events := wSt.events ++ [Event.chapterStarted "M" "7",
            Event.chapterCompleted "M" "7" (chapterCbzPath "dl" "M" "7"),
            Event.mangaProgress "M" (progressPct 0 1)] } :=
  ⟨⟨by decide, by decide, by decide⟩,
    idempotent_skip wEnv "dl" "u" "asura" "M" 1 0 0 ⟨"7", "Seven", "cu7"⟩ [] wSt
      (by decide) (by decide) (by decide)⟩

/-- Environment for the cancellation scenario: one resolvable chapter whose
download would report failure; the manga name is cancel-requested before the
first chapter boundary. -/
def cEnv : Env :=
  { getMangaName := fun _ _ => "M"
  , getChapters := fun _ _ => .ok [⟨"1", "One", "cu1"⟩]
  , downloadChapter := fun _ _ _ _ fs => .ok ("", fs) }

/-- Worker state with cancel requested for "M". -/
def cSt : QState := ⟨[], ["M"], [], [], [], 0, 0⟩

/-- Claim C2 (code bug, evaluated at the failing input): when the worker
observes the cancel request at the first chapter boundary it does clear the
flag, discard the remaining chapters, emit download_cancelled and re-enqueue
nothing — but precisely because the flag was removed from cancel_requested
before the break, the aggregation guard at gui.py line 341 passes and the
worker additionally emits the terminal manga_failed "All chapters failed to
download" (it would emit manga_completed had some chapter succeeded), so
Cancelled is not the only terminal status the Task reaches. -/
theorem cancel_extra_terminal_event :
    (processTask cEnv "dl" ⟨"u", "asura", none⟩ cSt).events =
      [Event.mangaStarted "M", Event.downloadCancelled "M",
        Event.mangaFailed "M" "All chapters failed to download"] ∧
    (processTask cEnv "dl" ⟨"u", "asura", none⟩ cSt).cancel = [] ∧
    (processTask cEnv "dl" ⟨"u", "asura", none⟩ cSt).queue = [] := by
  decide

/-- Claim C3 (confirmed): a pause observed at a chapter boundary stops the
loop, packages exactly the remaining unprocessed chapters — the current,
not-yet-started one included — into a new Task appended at the tail of the
queue and emits download_paused, leaving the success counter and all events
of the chapters already processed in place; and a paused Task surfacing at
the head of the queue is not processed: processTask puts it back at the
queue tail unchanged after accounting a bounded 500 ms sleep, emitting
nothing. -/
theorem pause_requeues_remainder (env : Env) (dlPath url siteType manga : String)
    (total idx successful : Nat) (c : Chapter) (rest : List Chapter) (st : QState)
    (t : Task) (st2 : QState)
    (hc : st.cancel.contains manga = false)
    (hp : st.paused.contains manga = true)
    (hp2 : st2.paused.contains (env.getMangaName t.url t.siteType) = true) :
    chapterLoop env dlPath url siteType manga total (c :: rest) idx successful st =
      (successful, { st with
        queue := st.queue ++ [⟨url, siteType, some (c :: rest)⟩],
        events := st.events ++ [Event.downloadPaused manga] }) ∧
    processTask env dlPath t st2 =
      { st2 with queue := st2.queue ++ [t], sleepMs := st2.sleepMs + 500 } := by
  have hc' : manga ∉ st.cancel := by simpa using hc
  have hp' : manga ∈ st.paused := by simpa using hp
  have hp2' : env.getMangaName t.url t.siteType ∈ st2.paused := by simpa using hp2
  constructor
  · simp [chapterLoop, hc', hp']
  · simp [processTask, hp2']

theorem pause_requeues_remainder_witness :
    ((⟨[], [], ["M"], [], [], 0, 0⟩ : QState).cancel.contains "M" = false ∧
      (⟨[], [], ["M"], [], [], 0, 0⟩ : QState).paused.contains "M" = true) ∧
    chapterLoop wEnv "dl" "u" "asura" "M" 2 [⟨"7", "Seven", "cu7"⟩, ⟨"8", "Eight", "cu8"⟩] 0 1
        ⟨[], [], ["M"], [], [], 0, 0⟩ =
      (1, { queue := [⟨"u", "asura", some [⟨"7", "Seven", "cu7"⟩, ⟨"8", "Eight", "cu8"⟩]⟩],
            cancel := [], paused := ["M"], fs := [],
            events := [Event.downloadPaused "M"], adapterCalls := 0, sleepMs := 0 }) ∧
    processTask wEnv "dl" ⟨"u", "asura", none⟩ ⟨[], [], ["M"], [], [], 0, 0⟩ =
      { queue := [⟨"u", "asura", none⟩], cancel := [], paused := ["M"], fs := [],
        events := [], adapterCalls := 0, sleepMs := 500 } := by
  refine ⟨⟨by decide, by decide⟩, ?_⟩
  have h := pause_requeues_remainder wEnv "dl" "u" "asura" "M" 2 0 1
    ⟨"7", "Seven", "cu7"⟩ [⟨"8", "Eight", "cu8"⟩] ⟨[], [], ["M"], [], [], 0, 0⟩
    ⟨"u", "asura", none⟩ ⟨[], [], ["M"], [], [], 0, 0⟩
    (by decide) (by decide) (by decide)
  exact ⟨h.1, h.2⟩

/-- Claim C7 (confirmed): a Task whose chapter-list resolution raises is
caught by the task-level handler, ends with the terminal manga_failed event,
and the worker loop does not terminate: one step of the queue loop on such a
Task continues processing the untouched remainder of the queue with the
failing Task consumed, so every subsequently enqueued Task is still dequeued
and processed. -/
theorem queue_survives_task_failure (env : Env) (dlPath : String) (st : QState)
    (t : Task) (rest : List Task) (fuel : Nat) (msg : String)
    (hq : st.queue = t :: rest)
    (hp : st.paused.contains (env.getMangaName t.url t.siteType) = false)
    (he : env.getChapters t.url t.siteType = .error msg) :
    processQueue env dlPath (fuel + 1) st =
      processQueue env dlPath fuel
        { st with
          queue := rest,
          events := st.events ++ [Event.mangaStarted (env.getMangaName t.url t.siteType),
            Event.mangaFailed (env.getMangaName t.url t.siteType) ("Error: " ++ msg)] } := by
  have hp' : env.getMangaName t.url t.siteType ∉ st.paused := by simpa using hp
  simp [processQueue, hq, processTask, hp', he]

/-- Environment in which task url "a" raises during chapter-list resolution
while url "b" resolves and downloads successfully. -/
def abEnv : Env :=
  { getMangaName := fun u _ => if u = "a" then "A" else "B"
  , getChapters := fun u _ => if u = "a" then .error "boom" else .ok [⟨"1", "One", "cu1"⟩]
  , downloadChapter := fun _ _ _ _ fs => .ok ("dl/B/Chapter 1.cbz", ("dl/B/Chapter 1.cbz", 5000) :: fs) }

theorem queue_survives_task_failure_witness :
    ((⟨[⟨"a", "asura", none⟩, ⟨"b", "katana", none⟩], [], [], [], [], 0, 0⟩ : QState).queue =
        ⟨"a", "asura", none⟩ :: [⟨"b", "katana", none⟩] ∧
      abEnv.getChapters "a" "asura" = Except.error "boom") ∧
    processQueue abEnv "dl" 2 ⟨[⟨"a", "asura", none⟩, ⟨"b", "katana", none⟩], [], [], [], [], 0, 0⟩ =
      processQueue abEnv "dl" 1
        { (⟨[⟨"a", "asura", none⟩, ⟨"b", "katana", none⟩], [], [], [], [], 0, 0⟩ : QState) with
          queue := [⟨"b", "katana", none⟩],
          events := [Event.mangaStarted "A", Event.mangaFailed "A" "Error: boom"] } ∧
    (processQueue abEnv "dl" 2
        ⟨[⟨"a", "asura", none⟩, ⟨"b", "katana", none⟩], [], [], [], [], 0, 0⟩).events =
      [Event.mangaStarted "A", Event.mangaFailed "A" "Error: boom",
        Event.mangaStarted "B", Event.chapterStarted "B" "1",
        Event.chapterCompleted "B" "1" "dl/B/Chapter 1.cbz",
        Event.mangaProgress "B" 100, Event.mangaCompleted "B"] := by
  refine ⟨⟨by decide, rfl⟩, ?_, by decide⟩
  exact queue_survives_task_failure abEnv "dl"
    ⟨[⟨"a", "asura", none⟩, ⟨"b", "katana", none⟩], [], [], [], [], 0, 0⟩
    ⟨"a", "asura", none⟩ [⟨"b", "katana", none⟩] 1 "boom" (by decide) (by decide) rfl

/-- The run of the chapter loop performed while processing one task whose
chapter listing resolved to `listed`: the sorted chosen chapters are
iterated starting from index 0 and success count 0, on the state right
after manga_started was emitted. -/
def taskLoopRun (env : Env) (dlPath : String) (t : Task) (st : QState)
    (listed : List Chapter) : Nat × QState :=
  chapterLoop env dlPath t.url t.siteType (env.getMangaName t.url t.siteType)
    (sortChapters (taskChosen t listed)).length (sortChapters (taskChosen t listed)) 0 0
    { st with events := st.events ++ [Event.mangaStarted (env.getMangaName t.url t.siteType)] }

/-- Claim C4 (confirmed): when a Task's chapter iteration is exhausted with
no cancel or pause interrupt pending, the worker emits exactly one terminal
event, classified by the success count s against the chapter count n as
aggEvent does: manga_failed "All chapters failed to download" when s = 0,
manga_completed when s = n (every chapter succeeded), and the Partial
manga_completed when 0 < s < n; the second conjunct bounds s by n, so the
three cases are exhaustive. -/
theorem terminal_aggregation (env : Env) (dlPath : String) (t : Task) (st : QState)
    (listed : List Chapter)
    (hc : st.cancel.contains (env.getMangaName t.url t.siteType) = false)
    (hp : st.paused.contains (env.getMangaName t.url t.siteType) = false)
    (hok : env.getChapters t.url t.siteType = .ok listed)
    (hne : listed.isEmpty = false) :
    processTask env dlPath t st =
      { (taskLoopRun env dlPath t st listed).2 with
        events := (taskLoopRun env dlPath t st listed).2.events ++
          [aggEvent (env.getMangaName t.url t.siteType) (taskLoopRun env dlPath t st listed).1
            (sortChapters (taskChosen t listed)).length] } ∧
    (taskLoopRun env dlPath t st listed).1 ≤ (sortChapters (taskChosen t listed)).length := by
  have hp' : env.getMangaName t.url t.siteType ∉ st.paused := by simpa using hp
  have hsets := chapterLoop_sets env dlPath t.url t.siteType (env.getMangaName t.url t.siteType)
    (sortChapters (taskChosen t listed)).length (sortChapters (taskChosen t listed)) 0 0
    { st with events := st.events ++ [Event.mangaStarted (env.getMangaName t.url t.siteType)] }
    hc hp
  constructor
  · have hc' : env.getMangaName t.url t.siteType ∉ st.cancel := by simpa using hc
    simp only at hsets
    unfold processTask taskLoopRun
    simp only [hok]
    generalize hR : chapterLoop env dlPath t.url t.siteType (env.getMangaName t.url t.siteType)
      (sortChapters (taskChosen t listed)).length (sortChapters (taskChosen t listed)) 0 0
      { st with events := st.events ++ [Event.mangaStarted (env.getMangaName t.url t.siteType)] } = R
    rw [hR] at hsets
    rcases Nat.eq_zero_or_pos R.1 with h0 | hpos
    · simp [hp', hne, hsets.1, hsets.2.1, hc', h0, aggEvent]
    · have hz : R.1 ≠ 0 := Nat.pos_iff_ne_zero.mp hpos
      by_cases heq : R.1 = (sortChapters (taskChosen t listed)).length
      · have hn0 : (sortChapters (taskChosen t listed)).length ≠ 0 := heq ▸ hz
        simp [hp', hne, hsets.1, hsets.2.1, hc', hpos, hz, heq, hn0, aggEvent]
      · simp [hp', hne, hsets.1, hsets.2.1, hc', hpos, hz, heq, aggEvent]
  · simpa using chapterLoop_success_le env dlPath t.url t.siteType
      (env.getMangaName t.url t.siteType) (sortChapters (taskChosen t listed)).length
      (sortChapters (taskChosen t listed)) 0 0
      { st with events := st.events ++ [Event.mangaStarted (env.getMangaName t.url t.siteType)] }

theorem terminal_aggregation_witness :
    ((⟨[], [], [], [], [], 0, 0⟩ : QState).cancel.contains (wEnv.getMangaName "u" "asura") = false ∧
      (⟨[], [], [], [], [], 0, 0⟩ : QState).paused.contains (wEnv.getMangaName "u" "asura") = false ∧
      wEnv.getChapters "u" "asura" = Except.ok [⟨"7", "Seven", "cu7"⟩] ∧
      ([(⟨"7", "Seven", "cu7"⟩ : Chapter)]).isEmpty = false) ∧
    processTask wEnv "dl" ⟨"u", "asura", none⟩ ⟨[], [], [], [], [], 0, 0⟩ =
      { (taskLoopRun wEnv "dl" ⟨"u", "asura", none⟩ ⟨[], [], [], [], [], 0, 0⟩
          [⟨"7", "Seven", "cu7"⟩]).2 with
        events := (taskLoopRun wEnv "dl" ⟨"u", "asura", none⟩ ⟨[], [], [], [], [], 0, 0⟩
            [⟨"7", "Seven", "cu7"⟩]).2.events ++
          [aggEvent (wEnv.getMangaName "u" "asura")
            (taskLoopRun wEnv "dl" ⟨"u", "asura", none⟩ ⟨[], [], [], [], [], 0, 0⟩
              [⟨"7", "Seven", "cu7"⟩]).1
            (sortChapters (taskChosen ⟨"u", "asura", none⟩ [⟨"7", "Seven", "cu7"⟩])).length] } ∧
    (taskLoopRun wEnv "dl" ⟨"u", "asura", none⟩ ⟨[], [], [], [], [], 0, 0⟩
        [⟨"7", "Seven", "cu7"⟩]).1 ≤
      (sortChapters (taskChosen ⟨"u", "asura", none⟩ [⟨"7", "Seven", "cu7"⟩])).length := by
  have h := terminal_aggregation wEnv "dl" ⟨"u", "asura", none⟩ ⟨[], [], [], [], [], 0, 0⟩
    [⟨"7", "Seven", "cu7"⟩] (by decide) (by decide) rfl (by decide)
  exact ⟨⟨by decide, by decide, rfl, by decide⟩, h.1, h.2⟩

/-- Image fetch oracle on which url img2 always succeeds and every other
url always fails. -/
def w2Fetch : String → Nat → Option Nat :=
  fun u _ => if u = "img2" then some 5000 else none

/-- Claim C5 (refuted at a concrete input): in the webtoon adapter a chapter
with images img1 (whose fetch fails) and img2 (whose fetch succeeds
whenever attempted, last conjunct) issues exactly one fetch attempt in
total — img1 is not retried 3 times, img2 is never attempted because the
single failure aborts the whole chapter, the partly written archive is
removed and "" is returned — contradicting both the 3-attempt retry and the
proceed-to-next-image tolerance claimed for every site adapter. -/
theorem webtoon_no_retry_counterexample :
    (webtoonDownload w2Fetch (some ["img1", "img2"]) "1" "M" "dl" []).path = "" ∧
    (webtoonDownload w2Fetch (some ["img1", "img2"]) "1" "M" "dl" []).imageFetches = 1 ∧
    (webtoonDownload w2Fetch (some ["img1", "img2"]) "1" "M" "dl" []).fs = [] ∧
    (webtoonDownload w2Fetch (some ["img2"]) "1" "M" "dl" []).path = "dl/M/Chapter 1.cbz" := by
  decide

/-- Claim C5 (amended): in the asura and katana adapters each image URL goes
through up to 3 fetch attempts with 1 s of backoff after each failed
non-final attempt, and an image whose attempts are exhausted is counted as
a failure for that single image only — the shared per-image loop processes
the remaining images exactly as it would have without the failure; the
webtoon adapter has no retry: it fetches each image at most once and a
single failed image aborts the whole chapter, removing the partly written
archive and returning "" without attempting the remaining images. -/
theorem retry_tolerance_amended (fetch : String → Nat → Option Nat)
    (u : String) (rest : List String) (num name cwd : String) (fs : Fs)
    (h0 : fetch u 0 = none) (h1 : fetch u 1 = none) (h2 : fetch u 2 = none)
    (hnx : fs.fileExists (cwd ++ "/" ++ name ++ "/Chapter " ++ num ++ ".cbz") = false) :
    fetchImagesRetry3 fetch (u :: rest) =
      ((fetchImagesRetry3 fetch rest).1, (fetchImagesRetry3 fetch rest).2.1 + 3,
        (fetchImagesRetry3 fetch rest).2.2 + 2) ∧
    webtoonDownload fetch (some (u :: rest)) num name cwd fs =
      ⟨"", (fs.writeFile (cwd ++ "/" ++ name ++ "/Chapter " ++ num ++ ".cbz") 0).removeFile
        (cwd ++ "/" ++ name ++ "/Chapter " ++ num ++ ".cbz"), 1, 0⟩ := by
  constructor
  · simp [fetchImagesRetry3, retry3, h0, h1, h2]
  · simp [webtoonDownload, hnx, webtoonFetchImages, h0]

/-- Image fetch oracle that always fails. -/
def noneFetch : String → Nat → Option Nat := fun _ _ => none

theorem retry_tolerance_amended_witness :
    (noneFetch "i1" 0 = none ∧ noneFetch "i1" 1 = none ∧ noneFetch "i1" 2 = none ∧
      Fs.fileExists [] ("dl" ++ "/" ++ "M" ++ "/Chapter " ++ "3" ++ ".cbz") = false) ∧
    fetchImagesRetry3 noneFetch ["i1", "i2"] =
      ((fetchImagesRetry3 noneFetch ["i2"]).1, (fetchImagesRetry3 noneFetch ["i2"]).2.1 + 3,
        (fetchImagesRetry3 noneFetch ["i2"]).2.2 + 2) ∧
    webtoonDownload noneFetch (some ["i1", "i2"]) "3" "M" "dl" [] =
      ⟨"", (Fs.writeFile [] ("dl" ++ "/" ++ "M" ++ "/Chapter " ++ "3" ++ ".cbz") 0).removeFile
        ("dl" ++ "/" ++ "M" ++ "/Chapter " ++ "3" ++ ".cbz"), 1, 0⟩ := by
  have h := retry_tolerance_amended noneFetch "i1" ["i2"] "3" "M" "dl" []
    rfl rfl rfl (by decide)
  exact ⟨⟨rfl, rfl, rfl, by decide⟩, h.1, h.2⟩

/-- When every fetch attempt of every URL fails, the retrying per-image
loop fetches 3 attempts and sleeps 2 seconds per image and collects no
image at all. -/
theorem fetchImagesRetry3_allfail (fetch : String → Nat → Option Nat) :
    ∀ (urls : List String),
      (∀ v ∈ urls, fetch v 0 = none ∧ fetch v 1 = none ∧ fetch v 2 = none) →
      fetchImagesRetry3 fetch urls = ([], 3 * urls.length, 2 * urls.length) := by
  intro urls
  induction urls with
  | nil => intro; rfl
  | cons u rest ih =>
    intro hall
    have hu := hall u (by simp)
    have hrest := ih (fun v hv => hall v (by simp [hv]))
    simp [fetchImagesRetry3, retry3, hu.1, hu.2.1, hu.2.2, hrest, Prod.ext_iff]
    omega

/-- Clearing the destination as the adapters do (removing an existing empty
file, touching nothing otherwise) leaves no file at the path. -/
theorem fileExists_clearEmpty (fs : Fs) (p : String) :
    Fs.fileExists (if fs.fileExists p then fs.removeFile p else fs) p = false := by
  cases hb : fs.fileExists p with
  | false => simp [hb]
  | true => simp [hb, Fs.fileExists_removeFile]

/-- Claim C6 (confirmed): for a chapter with a non-empty image URL list
where every image fetch fails on all of its attempts, each of the three
adapters reports the chapter as failed ("" path, and success = false for
katana) and leaves no archive file at the destination path afterwards —
asura never creates the archive, katana deletes the under-1000-byte
(22-byte empty) archive it created, and webtoon removes the partly written
archive when the first image fetch raises. -/
theorem zero_success_no_archive (fetch : String → Nat → Option Nat)
    (u : String) (rest : List String) (num name base cwd : String) (fs : Fs)
    (hall : ∀ v ∈ u :: rest, fetch v 0 = none ∧ fetch v 1 = none ∧ fetch v 2 = none)
    (hasu : fs.isNonEmptyFile (adapterCbzPath base name num) = false)
    (hweb : fs.fileExists (cwd ++ "/" ++ name ++ "/Chapter " ++ num ++ ".cbz") = false) :
    ((asuraDownload fetch (some (u :: rest)) num name base fs).path = "" ∧
      Fs.fileExists (asuraDownload fetch (some (u :: rest)) num name base fs).fs
        (adapterCbzPath base name num) = false) ∧
    ((katanaDownload fetch (some (u :: rest)) num name base fs).path = "" ∧
      (katanaDownload fetch (some (u :: rest)) num name base fs).success = false ∧
      Fs.fileExists (katanaDownload fetch (some (u :: rest)) num name base fs).fs
        (adapterCbzPath base name num) = false) ∧
    ((webtoonDownload fetch (some (u :: rest)) num name cwd fs).path = "" ∧
      Fs.fileExists (webtoonDownload fetch (some (u :: rest)) num name cwd fs).fs
        (cwd ++ "/" ++ name ++ "/Chapter " ++ num ++ ".cbz") = false) := by
  have hfim := fetchImagesRetry3_allfail fetch (u :: rest) hall
  have hu := hall u (by simp)
  refine ⟨⟨?_, ?_⟩, ⟨?_, ?_, ?_⟩, ⟨?_, ?_⟩⟩
  · simp [asuraDownload, hasu, hfim]
  · simp [asuraDownload, hasu, hfim, fileExists_clearEmpty]
  · simp [katanaDownload, hasu, hfim, zipSize]
  · simp [katanaDownload, hasu, hfim, zipSize]
  · simp [katanaDownload, hasu, hfim, zipSize, Fs.fileExists_removeFile]
  · simp [webtoonDownload, hweb, webtoonFetchImages, hu.1]
  · simp [webtoonDownload, hweb, webtoonFetchImages, hu.1, Fs.fileExists_removeFile]

theorem zero_success_no_archive_witness :
    ((∀ v ∈ ["i1"], noneFetch v 0 = none ∧ noneFetch v 1 = none ∧ noneFetch v 2 = none) ∧
      Fs.isNonEmptyFile [] (adapterCbzPath "dl" "M" "3") = false ∧
      Fs.fileExists [] ("dl" ++ "/" ++ "M" ++ "/Chapter " ++ "3" ++ ".cbz") = false) ∧
    ((asuraDownload noneFetch (some ["i1"]) "3" "M" "dl" []).path = "" ∧
      Fs.fileExists (asuraDownload noneFetch (some ["i1"]) "3" "M" "dl" []).fs
        (adapterCbzPath "dl" "M" "3") = false) ∧
    ((katanaDownload noneFetch (some ["i1"]) "3" "M" "dl" []).path = "" ∧
      (katanaDownload noneFetch (some ["i1"]) "3" "M" "dl" []).success = false ∧
      Fs.fileExists (katanaDownload noneFetch (some ["i1"]) "3" "M" "dl" []).fs
        (adapterCbzPath "dl" "M" "3") = false) ∧
    ((webtoonDownload noneFetch (some ["i1"]) "3" "M" "dl" []).path = "" ∧
      Fs.fileExists (webtoonDownload noneFetch (some ["i1"]) "3" "M" "dl" []).fs
        ("dl" ++ "/" ++ "M" ++ "/Chapter " ++ "3" ++ ".cbz") = false) := by
  have h := zero_success_no_archive noneFetch "i1" [] "3" "M" "dl" "dl" []
    (fun v hv => ⟨rfl, rfl, rfl⟩) (by decide) (by decide)
  exact ⟨⟨fun v hv => ⟨rfl, rfl, rfl⟩, by decide, by decide⟩, h.1, h.2.1, h.2.2⟩

/-- Claim C8 (code bug, evaluated at the failing inputs): _load_history
itself never raises, but on an absent or unreadable history file it falls
through and returns None rather than an empty mapping, and it renames the
bad file aside only in the readable-but-non-dict case (an unreadable file is
not quarantined); consequently add_manga, get_manga_list and
add_downloaded_chapter on the resulting manager raise
TypeError/AttributeError instead of operating on an empty history.  The
last conjunct shows the empty-history behaviour the claim expects, which
the code only exhibits when self.history is an actual dict. -/
theorem history_load_returns_none :
    loadHistory HistoryFile.absent = ⟨none, false⟩ ∧
    loadHistory HistoryFile.unreadable = ⟨none, false⟩ ∧
    loadHistory (HistoryFile.nonDict "a JSON array") = ⟨none, true⟩ ∧
    addManga none "M" "u" "asura" =
      Except.error "TypeError: argument of type NoneType is not iterable" ∧
    getMangaList none =
      Except.error "AttributeError: NoneType object has no attribute keys" ∧
    addDownloadedChapter none "M" "3" "asura" "cu" =
      Except.error "TypeError: argument of type NoneType is not iterable" ∧
    addManga (some []) "M" "u" "asura" = Except.ok [("M", ⟨"u", "asura", []⟩)] :=
  ⟨rfl, rfl, rfl, rfl, rfl, rfl, rfl⟩

/-- Image fetch oracle that always succeeds with a 2000-byte body. -/
def alwaysFetch : String → Nat → Option Nat := fun _ _ => some 2000

/-- Claim C9 (refuted at a concrete input): every adapter does check the
destination itself.  With a non-empty archive already at
dl/M/Chapter 2.cbz, asuraDownload, katanaDownload and webtoonDownload all
return without a single image fetch and leave the filesystem untouched,
while on an empty filesystem the very same calls fetch the one image —
their behaviour is not the same whether or not the archive is present. -/
theorem adapter_skip_counterexample :
    (asuraDownload alwaysFetch (some ["i1"]) "2" "M" "dl"
      [("dl/M/Chapter 2.cbz", 7)]).imageFetches = 0 ∧
    (asuraDownload alwaysFetch (some ["i1"]) "2" "M" "dl"
      [("dl/M/Chapter 2.cbz", 7)]).path = "dl/M/Chapter 2.cbz" ∧
    (asuraDownload alwaysFetch (some ["i1"]) "2" "M" "dl"
      [("dl/M/Chapter 2.cbz", 7)]).fs = [("dl/M/Chapter 2.cbz", 7)] ∧
    (asuraDownload alwaysFetch (some ["i1"]) "2" "M" "dl" []).imageFetches = 1 ∧
    (katanaDownload alwaysFetch (some ["i1"]) "2" "M" "dl"
      [("dl/M/Chapter 2.cbz", 7)]).imageFetches = 0 ∧
    (katanaDownload alwaysFetch (some ["i1"]) "2" "M" "dl" []).imageFetches = 1 ∧
    (webtoonDownload alwaysFetch (some ["i1"]) "2" "M" "dl"
      [("dl/M/Chapter 2.cbz", 7)]).imageFetches = 0 ∧
    (webtoonDownload alwaysFetch (some ["i1"]) "2" "M" "dl" []).imageFetches = 1 := by
  decide

/-- Claim C9 (amended): skip-detection is performed not only by the Queue
Manager but also by every adapter's download_chapter itself: whenever a
non-empty archive is already at the destination, each adapter returns its
path with no fetch and no filesystem change (asura and katana check
existence plus non-zero size; webtoon checks mere existence, so the
hypothesis of an existing file suffices for it). -/
theorem adapters_skip_existing (fetch : String → Nat → Option Nat)
    (page : Option (List String)) (num name base cwd : String) (fs : Fs)
    (ha : fs.isNonEmptyFile (adapterCbzPath base name num) = true)
    (hw : fs.fileExists (cwd ++ "/" ++ name ++ "/Chapter " ++ num ++ ".cbz") = true) :
    asuraDownload fetch page num name base fs =
      ⟨adapterCbzPath base name num, fs, 0, 0⟩ ∧
    katanaDownload fetch page num name base fs =
      ⟨adapterCbzPath base name num, true, fs, 0, 0⟩ ∧
    webtoonDownload fetch page num name cwd fs =
      ⟨cwd ++ "/" ++ name ++ "/Chapter " ++ num ++ ".cbz", fs, 0, 0⟩ := by
  refine ⟨?_, ?_, ?_⟩
  · simp [asuraDownload, ha]
  · simp [katanaDownload, ha]
  · simp [webtoonDownload, hw]

theorem adapters_skip_existing_witness :
    (Fs.isNonEmptyFile [("dl/M/Chapter 2.cbz", 7)] (adapterCbzPath "dl" "M" "2") = true ∧
      Fs.fileExists [("dl/M/Chapter 2.cbz", 7)]
        ("dl" ++ "/" ++ "M" ++ "/Chapter " ++ "2" ++ ".cbz") = true) ∧
    asuraDownload alwaysFetch (some ["i1"]) "2" "M" "dl" [("dl/M/Chapter 2.cbz", 7)] =
      ⟨adapterCbzPath "dl" "M" "2", [("dl/M/Chapter 2.cbz", 7)], 0, 0⟩ ∧
    katanaDownload alwaysFetch (some ["i1"]) "2" "M" "dl" [("dl/M/Chapter 2.cbz", 7)] =
      ⟨adapterCbzPath "dl" "M" "2", true, [("dl/M/Chapter 2.cbz", 7)], 0, 0⟩ ∧
    webtoonDownload alwaysFetch (some ["i1"]) "2" "M" "dl" [("dl/M/Chapter 2.cbz", 7)] =
      ⟨"dl" ++ "/" ++ "M" ++ "/Chapter " ++ "2" ++ ".cbz", [("dl/M/Chapter 2.cbz", 7)], 0, 0⟩ := by
  have h := adapters_skip_existing alwaysFetch (some ["i1"]) "2" "M" "dl" "dl"
    [("dl/M/Chapter 2.cbz", 7)] (by decide) (by decide)
  exact ⟨⟨by decide, by decide⟩, h.1, h.2.1, h.2.2⟩

/-- Claim C10 (confirmed): the katana adapter decides chapter success by the
byte size of the finished archive, not by how many images were fetched:
whenever the run reaches the final size check with a finished archive
smaller than 1000 bytes, the archive is deleted and the call reports
failure (empty path, success = false), with no file left at the
destination — the hypotheses put no bound on how many images succeeded,
and the witness exercises the case of one successfully stored image. -/
theorem katana_size_threshold (fetch : String → Nat → Option Nat)
    (urls : List String) (num name base : String) (fs : Fs)
    (hnf : fs.isNonEmptyFile (adapterCbzPath base name num) = false)
    (hne : urls.isEmpty = false)
    (hsize : zipSize (fetchImagesRetry3 fetch urls).1 < 1000) :
    (katanaDownload fetch (some urls) num name base fs).path = "" ∧
    (katanaDownload fetch (some urls) num name base fs).success = false ∧
    Fs.fileExists (katanaDownload fetch (some urls) num name base fs).fs
      (adapterCbzPath base name num) = false := by
  refine ⟨?_, ?_, ?_⟩ <;>
    simp [katanaDownload, hnf, hne, hsize, Fs.fileExists_removeFile]

/-- Image fetch oracle that always succeeds with a 300-byte body. -/
def smallFetch : String → Nat → Option Nat := fun _ _ => some 300

theorem katana_size_threshold_witness :
    (Fs.isNonEmptyFile [] (adapterCbzPath "dl" "M" "2") = false ∧
      (["i1"] : List String).isEmpty = false ∧
      zipSize (fetchImagesRetry3 smallFetch ["i1"]).1 < 1000 ∧
      (fetchImagesRetry3 smallFetch ["i1"]).1 = [300]) ∧
    (katanaDownload smallFetch (some ["i1"]) "2" "M" "dl" []).path = "" ∧
    (katanaDownload smallFetch (some ["i1"]) "2" "M" "dl" []).success = false ∧
    Fs.fileExists (katanaDownload smallFetch (some ["i1"]) "2" "M" "dl" []).fs
      (adapterCbzPath "dl" "M" "2") = false := by
  have h := katana_size_threshold smallFetch ["i1"] "2" "M" "dl" []
    (by decide) (by decide) (by decide)
  exact ⟨⟨by decide, by decide, by decide, by decide⟩, h.1, h.2.1, h.2.2⟩

end MangaDL
